import Mathlib

/-!
Shallow embedding of the lifecycle-coordination (graceful shutdown) mechanism
and the HTTP route handlers of `src/server.ts` (ktx-jay/docker-demo).

The shutdown mechanism (server.ts lines 184-224) is event-driven: a signal
handler `gracefulShutdown` logs a line, calls `server.close(cb)` and arms a
30000 ms timer; the `server.close` callback fires once the listener has
stopped accepting connections and all in-flight requests have drained (or
with an error), and only then invokes `mongoose.connection.close()`; the
timer callback force-exits. We model this as a labelled transition system:
a `Config` records the observable process state and a `step` function
consumes runtime events (signal delivery, completion of the listener close,
settlement of the storage close, timer expiry). The environment chooses the
order of events, so quantifying over event lists quantifies over all
orderings of completion timing. `process.exit` terminates the process, so
every event is a no-op once `exited` is set.
-/

namespace DockerDemo

/-- The two termination signals the server registers handlers for
(server.ts lines 223-224). -/
inductive Sig where
  | SIGTERM
  | SIGINT
deriving DecidableEq, Repr

/-- Lifecycle log lines emitted by the shutdown code paths of server.ts:
`initiated s` is the "{signal} signal received: starting graceful shutdown"
line (191), `serverCloseError` is "Error closing server" (196), `httpClosed`
is "HTTP server closed (no longer accepting connections)" (200),
`mongoConnClosed` is "MongoDB connection closed" (205), `shutdownCompleted`
is "Graceful shutdown completed" (207), `shutdownError` is "Error during
shutdown" (210), and `timedOut` is "Graceful shutdown timed out, forcing
exit..." (217). -/
inductive LogEv where
  | initiated (s : Sig)
  | serverCloseError
  | httpClosed
  | mongoConnClosed
  | shutdownCompleted
  | shutdownError
  | timedOut
deriving DecidableEq, Repr

/-- Observable process state during shutdown: the log so far, the number of
`server.close` callbacks registered and not yet fired, the durations (ms) of
armed shutdown timers, whether the HTTP server has completed closing,
the number of invocations of `mongoose.connection.close()`, and the exit
code once `process.exit` has run. -/
structure Config where
  log : List LogEv
  pendingClose : Nat
  timers : List Nat
  serverClosed : Bool
  mongoCloseCalls : Nat
  exited : Option Nat
deriving DecidableEq, Repr

/-- The timeout passed to `setTimeout` in server.ts line 219: 30000 ms. -/
def shutdownTimeoutMs : Nat := 30000

/-- Synchronous body of `gracefulShutdown` (server.ts lines 190-220): log the
"signal received" line, invoke `server.close` (registering one completion
callback), and arm one timer of `shutdownTimeoutMs`. The body has no
"already shutting down" guard, so it runs in full on every invocation. -/
def gracefulShutdown (signal : Sig) (c : Config) : Config :=
  { c with
    log := c.log ++ [LogEv.initiated signal]
    pendingClose := c.pendingClose + 1
    timers := c.timers ++ [shutdownTimeoutMs] }

/-- Runtime events delivered by the Node event loop, in an order chosen by
the environment: `deliver s` is the OS delivering termination signal `s`
(running the registered handler, server.ts lines 223-224); `srvClosed ok`
is one `server.close` callback firing, `ok = true` meaning the listener
stopped accepting connections and all in-flight requests drained with no
error; `mongoClosed ok` is the `mongoose.connection.close()` promise
settling (`ok = false` a rejection); `timerFire` is one armed shutdown
timer elapsing. -/
inductive Ev where
  | deliver (s : Sig)
  | srvClosed (ok : Bool)
  | mongoClosed (ok : Bool)
  | timerFire
deriving DecidableEq, Repr

/-- One step of the shutdown transition system. Events are no-ops when their
callback is not registered (for example `srvClosed` with no pending
`server.close` call) and after `process.exit` has run. The `srvClosed`
branches are the callback at server.ts lines 194-213: on error, log and
exit 1; on success, log, mark the server closed and invoke
`mongoose.connection.close()` (a `srvClosed` callback delivered after the
server is already fully closed reports the Node "server is not running"
error and takes the error branch). The `mongoClosed` branches are the
`try`/`catch` around the awaited close: on success log the two final lines
and exit 0, on rejection log the error and exit 1. The `timerFire` branch
is the `setTimeout` callback at lines 216-219: log the warning and exit 1. -/
def step (c : Config) (e : Ev) : Config :=
  if c.exited.isSome then c
  else
    match e with
    | Ev.deliver s => gracefulShutdown s c
    | Ev.srvClosed ok =>
        if c.pendingClose = 0 then c
        else if ok && !c.serverClosed then
          { c with
            pendingClose := c.pendingClose - 1
            serverClosed := true
            log := c.log ++ [LogEv.httpClosed]
            mongoCloseCalls := c.mongoCloseCalls + 1 }
        else
          { c with
            pendingClose := c.pendingClose - 1
            log := c.log ++ [LogEv.serverCloseError]
            exited := some 1 }
    | Ev.mongoClosed ok =>
        if c.mongoCloseCalls = 0 then c
        else if ok then
          { c with
            log := c.log ++ [LogEv.mongoConnClosed, LogEv.shutdownCompleted]
            exited := some 0 }
        else
          { c with
            log := c.log ++ [LogEv.shutdownError]
            exited := some 1 }
    | Ev.timerFire =>
        match c.timers with
        | [] => c
        | _ :: ts =>
            { c with
              timers := ts
              log := c.log ++ [LogEv.timedOut]
              exited := some 1 }

/-- Process state at startup, before any signal: nothing logged, no close
requested, no timer armed, server accepting, storage connection open. -/
def init : Config :=
  { log := []
    pendingClose := 0
    timers := []
    serverClosed := false
    mongoCloseCalls := 0
    exited := none }

/-- A run of the process: fold the events the environment delivers, in
order, over the initial state. -/
def run (es : List Ev) : Config :=
  es.foldl step init

/-- Number of timed-out warning lines in a log. -/
def countTimedOut : List LogEv → Nat
  | [] => 0
  | LogEv.timedOut :: l => countTimedOut l + 1
  | _ :: l => countTimedOut l

/-! Startup: the module-level `mongoose.connect(MONGO_URI)` call
(server.ts lines 47-57) and the unconditional `app.listen` call
(lines 184-187). The connect promise either resolves (then the two success
lines are logged) or rejects (then the connection-error line is logged and
nothing else happens: the `process.exit(1)` on that path is commented out).
`app.listen` runs regardless, so the server accepts requests either way. -/

/-- Outcome of the initial `mongoose.connect` promise. -/
inductive ConnectOutcome where
  | connected
  | connectError
deriving DecidableEq, Repr

/-- Startup log lines of server.ts: "Successfully connected to MongoDB"
(line 50), "Database: ..." (line 51), "MongoDB connection error: ..."
(line 54). -/
inductive StartLog where
  | mongoConnectedMsg
  | databaseMsg
  | mongoConnectErrorMsg
deriving DecidableEq, Repr

/-- Process state after startup settles: what was logged by the connect
continuation, whether the HTTP listener is accepting requests, and whether
`process.exit` ran during startup. -/
structure StartupState where
  log : List StartLog
  listening : Bool
  exited : Option Nat
deriving DecidableEq, Repr

/-- Startup as a function of the connect outcome (server.ts lines 47-57 and
184-187): `app.listen` is a module-level call, so `listening` is true in
both cases, and neither branch of the connect continuation exits. -/
def startup : ConnectOutcome → StartupState
  | ConnectOutcome.connected =>
      { log := [StartLog.mongoConnectedMsg, StartLog.databaseMsg]
        listening := true
        exited := none }
  | ConnectOutcome.connectError =>
      { log := [StartLog.mongoConnectErrorMsg]
        listening := true
        exited := none }

/-! Route handlers (server.ts lines 72-164). A task document carries the
fields of `TaskSchema` (lines 28-41) plus the document id Mongo assigns;
`createdAt` is a timestamp modelled as a natural number. The database is
modelled as the list of stored task documents; each Mongoose operation is
modelled by its documented effect on that list, and a handler that performs
a fallible driver call additionally takes the call's outcome (success, or a
thrown error message caught by the handler's `try`/`catch`). -/

/-- A stored task document: `TaskSchema` fields plus the document id. -/
structure Task where
  id : Nat
  title : String
  completed : Bool
  createdAt : Nat
deriving DecidableEq, Repr

/-- Response shape of the single-task routes (POST/PUT/DELETE): HTTP
status, the `success` flag, and the optional `data`, `message` and `error`
fields of the JSON body. -/
structure TaskRes where
  status : Nat
  success : Bool
  data : Option Task
  message : Option String
  error : Option String
deriving DecidableEq, Repr

/-- Response shape of GET /api/tasks: status, `success`, optional `count`
and `data`, optional `error`. -/
structure GetRes where
  status : Nat
  success : Bool
  count : Option Nat
  data : Option (List Task)
  error : Option String
deriving DecidableEq, Repr

/-- `Task.find().sort(\x7b createdAt: -1 \x7d)` (server.ts line 74): all
stored tasks, ordered by `createdAt` descending. -/
def findSortedByCreatedAtDesc (db : List Task) : List Task :=
  db.insertionSort (fun a b => b.createdAt ≤ a.createdAt)

instance : IsTotal Task (fun a b => b.createdAt ≤ a.createdAt) :=
  ⟨fun a b => Nat.le_total b.createdAt a.createdAt⟩

instance : IsTrans Task (fun a b => b.createdAt ≤ a.createdAt) :=
  ⟨fun _ _ _ hab hbc => Nat.le_trans hbc hab⟩

/-- GET /api/tasks handler (server.ts lines 72-86), as a function of the
outcome of the awaited query: on success respond 200 with `success: true`,
`count` the number of returned tasks and `data` the tasks; on a thrown
error respond 500 with `success: false` and the error message. -/
def getTasks : Except String (List Task) → GetRes
  | Except.ok tasks =>
      { status := 200
        success := true
        count := some tasks.length
        data := some tasks
        error := none }
  | Except.error msg =>
      { status := 500
        success := false
        count := none
        data := none
        error := some msg }

/-- The falsy test `if (!title)` of server.ts line 93 on the optional
string field `title` of the request body: a missing title or the empty
string is falsy. -/
def titleFalsy : Option String → Bool
  | none => true
  | some t => t == ""

/-- `Task.create(\x7b title \x7d)` (server.ts line 100): insert a new
document with the given title, `completed` defaulted to false and
`createdAt` defaulted to the current time; returns the created document and
the new collection. `newId` is the id Mongo assigns, `now` the current
time. -/
def createTask (db : List Task) (newId now : Nat) (title : String) :
    Task × List Task :=
  let t : Task := { id := newId, title := title, completed := false, createdAt := now }
  (t, db ++ [t])

/-- POST /api/tasks handler (server.ts lines 89-111): reject a falsy title
with 400 "Title is required" before any driver call; otherwise run
`Task.create`, whose outcome `createThrows` is `some msg` when the awaited
call throws (caught by the handler, responding 500) and `none` when it
succeeds (responding 201 with the created document). Returns the response
and the resulting stored collection. -/
def postTasks (db : List Task) (newId now : Nat) (title : Option String)
    (createThrows : Option String) : TaskRes × List Task :=
  if titleFalsy title then
    ({ status := 400, success := false, data := none, message := none,
       error := some "Title is required" }, db)
  else
    match createThrows with
    | some msg =>
        ({ status := 500, success := false, data := none, message := none,
           error := some msg }, db)
    | none =>
        let p := createTask db newId now (title.getD "")
        ({ status := 201, success := true, data := some p.1, message := none,
           error := none }, p.2)

/-- The update document of a PUT request body: the `TaskSchema` fields it
may set. -/
structure UpdateBody where
  title : Option String
  completed : Option Bool
deriving DecidableEq, Repr

/-- Apply an update document to a stored task. -/
def applyUpdate (b : UpdateBody) (t : Task) : Task :=
  { t with
    title := b.title.getD t.title
    completed := b.completed.getD t.completed }

/-- `Task.findByIdAndUpdate(id, body, \x7b new: true, ... \x7d)`
(server.ts lines 117-120): if no document has the id, return null and leave
the collection unchanged; otherwise update the matching document and return
the updated document (`new: true`). -/
def findByIdAndUpdate (id : Nat) (b : UpdateBody) (db : List Task) :
    Option Task × List Task :=
  match db.find? (fun t => t.id == id) with
  | none => (none, db)
  | some t =>
      let t' := applyUpdate b t
      (some t', db.map (fun u => if u.id == id then t' else u))

/-- `Task.findByIdAndDelete(id)` (server.ts line 145): if no document has
the id, return null and leave the collection unchanged; otherwise remove
and return the matching document. -/
def findByIdAndDelete (id : Nat) (db : List Task) :
    Option Task × List Task :=
  match db.find? (fun t => t.id == id) with
  | none => (none, db)
  | some t => (some t, db.filter (fun u => u.id != id))

/-- PUT /api/tasks/:id handler (server.ts lines 114-139) on the path where
the lookup does not throw: a null lookup result gives 404 "Task not found",
otherwise 200 with the updated document. Returns the response and the
resulting stored collection. -/
def putTasks (id : Nat) (b : UpdateBody) (db : List Task) :
    TaskRes × List Task :=
  match findByIdAndUpdate id b db with
  | (none, db') =>
      ({ status := 404, success := false, data := none, message := none,
         error := some "Task not found" }, db')
  | (some t, db') =>
      ({ status := 200, success := true, data := some t, message := none,
         error := none }, db')

/-- DELETE /api/tasks/:id handler (server.ts lines 142-164) on the path
where the lookup does not throw: a null lookup result gives 404 "Task not
found", otherwise 200 with the deletion message. Returns the response and
the resulting stored collection. -/
def deleteTasks (id : Nat) (db : List Task) : TaskRes × List Task :=
  match findByIdAndDelete id db with
  | (none, db') =>
      ({ status := 404, success := false, data := none, message := none,
         error := some "Task not found" }, db')
  | (some _, db') =>
      ({ status := 200, success := true, data := none,
         message := some "Task deleted successfully", error := none }, db')

/-! Helper lemmas about the shutdown transition system. -/

/-- After `process.exit` has run, every event is a no-op. -/
theorem step_of_exited (c : Config) (e : Ev) (h : c.exited.isSome = true) :
    step c e = c := by
  simp [step, h]

/-- After `process.exit` has run, whole event lists are no-ops. -/
theorem foldl_step_of_exited (es : List Ev) (c : Config)
    (h : c.exited.isSome = true) : es.foldl step c = c := by
  induction es with
  | nil => rfl
  | cons e l ih => rw [List.foldl_cons, step_of_exited c e h]; exact ih

/-- A property preserved by every step holds after any event list. -/
theorem foldl_step_inv (P : Config → Prop)
    (hstep : ∀ c e, P c → P (step c e)) :
    ∀ (es : List Ev) (c : Config), P c → P (es.foldl step c) := by
  intro es
  induction es with
  | nil => exact fun c hc => hc
  | cons e l ih => exact fun c hc => ih _ (hstep c e hc)

/-- Each step preserves "if the storage close was ever invoked, the listener
had already reported closed". -/
theorem mongo_inv_step (c : Config) (e : Ev)
    (hc : 1 ≤ c.mongoCloseCalls → c.serverClosed = true) :
    1 ≤ (step c e).mongoCloseCalls → (step c e).serverClosed = true := by
  by_cases hex : c.exited.isSome = true
  · rw [step_of_exited c e hex]; exact hc
  · cases e with
    | deliver s =>
        simp only [step, if_neg hex, gracefulShutdown]
        simpa using hc
    | srvClosed ok =>
        simp only [step, if_neg hex]
        split
        · exact hc
        · split
          · intro _; rfl
          · simpa using hc
    | mongoClosed ok =>
        simp only [step, if_neg hex]
        split
        · exact hc
        · split <;> simpa using hc
    | timerFire =>
        simp only [step, if_neg hex]
        split
        · exact hc
        · simpa using hc

/-- `countTimedOut` adds over list append. -/
theorem countTimedOut_append (l₁ l₂ : List LogEv) :
    countTimedOut (l₁ ++ l₂) = countTimedOut l₁ + countTimedOut l₂ := by
  induction l₁ with
  | nil => simp [countTimedOut]
  | cons x l ih =>
      cases x <;> simp [countTimedOut, ih]
      omega

/-- Each step preserves "no timeout warning while alive, and never more
than one timeout warning". -/
theorem timedOut_inv_step (c : Config) (e : Ev)
    (hc : (c.exited = none → countTimedOut c.log = 0) ∧
      countTimedOut c.log ≤ 1) :
    ((step c e).exited = none → countTimedOut (step c e).log = 0) ∧
      countTimedOut (step c e).log ≤ 1 := by
  by_cases hex : c.exited.isSome = true
  · rw [step_of_exited c e hex]; exact hc
  · have hnone : c.exited = none := Option.not_isSome_iff_eq_none.mp hex
    have h0 : countTimedOut c.log = 0 := hc.1 hnone
    cases e with
    | deliver s =>
        simp only [step, if_neg hex, gracefulShutdown]
        simp [countTimedOut_append, countTimedOut, h0, hnone]
    | srvClosed ok =>
        simp only [step, if_neg hex]
        split
        · exact hc
        · split <;> simp [countTimedOut_append, countTimedOut, h0, hnone]
    | mongoClosed ok =>
        simp only [step, if_neg hex]
        split
        · exact hc
        · split <;> simp [countTimedOut_append, countTimedOut, h0, hnone]
    | timerFire =>
        simp only [step, if_neg hex]
        split
        · exact hc
        · simp [countTimedOut_append, countTimedOut, h0]

/-! Claim theorems. -/

/-- Claim C1: in every execution of the shutdown sequence, under every
ordering of completion timing chosen by the environment (every event list),
whenever `mongoose.connection.close()` has been invoked at least once, the
listener had already reported that it stopped accepting new connections and
all in-flight requests drained (the no-error `server.close` completion,
which is the only step that sets `serverClosed`). -/
theorem storage_close_only_after_listener_drained (es : List Ev)
    (h : 1 ≤ (run es).mongoCloseCalls) : (run es).serverClosed = true := by
  have key := foldl_step_inv
    (fun c => 1 ≤ c.mongoCloseCalls → c.serverClosed = true)
    mongo_inv_step es init (by intro h0; exact absurd h0 (by decide))
  exact key h

/-- Witness for C1: the run where SIGTERM arrives and the listener then
drains cleanly has invoked the storage close once, and indeed the listener
had reported closed. -/
theorem storage_close_only_after_listener_drained_witness :
    1 ≤ (run [Ev.deliver Sig.SIGTERM, Ev.srvClosed true]).mongoCloseCalls ∧
    (run [Ev.deliver Sig.SIGTERM, Ev.srvClosed true]).serverClosed = true :=
  ⟨by decide,
   storage_close_only_after_listener_drained
     [Ev.deliver Sig.SIGTERM, Ev.srvClosed true] (by decide)⟩

/-- Counterexample to claim C2: `gracefulShutdown` has no "already shutting
down" guard (server.ts lines 190-224), so two termination signals in quick
succession — the second delivered while the coordinator is already
draining — run the handler twice and emit TWO "shutdown initiated" events,
refuting "the second is ignored" and "exactly one shutdown initiated event
is emitted". -/
theorem double_signal_emits_two_initiated_events :
    (run [Ev.deliver Sig.SIGTERM, Ev.deliver Sig.SIGTERM]).log =
      [LogEv.initiated Sig.SIGTERM, LogEv.initiated Sig.SIGTERM] ∧
    (run [Ev.deliver Sig.SIGTERM, Ev.deliver Sig.SIGTERM]).exited = none := by
  constructor <;> rfl

/-- Claim C2 as amended: the shutdown transition is NOT guarded — every
termination signal delivered while the process has not exited runs the
handler in full, emitting one more "shutdown initiated" event, registering
one more `server.close` callback and arming one more 30-second timer; in
particular a second signal while already draining is not ignored. -/
theorem signal_handler_runs_per_signal (c : Config) (s : Sig)
    (h : c.exited = none) :
    step c (Ev.deliver s) =
      { c with
        log := c.log ++ [LogEv.initiated s]
        pendingClose := c.pendingClose + 1
        timers := c.timers ++ [shutdownTimeoutMs] } := by
  have hex : ¬ c.exited.isSome = true := by simp [h]
  simp only [step, if_neg hex, gracefulShutdown]

/-- Witness for the amended C2: re-delivering SIGTERM while already
draining runs the handler again. -/
theorem signal_handler_runs_per_signal_witness :
    (run [Ev.deliver Sig.SIGTERM]).exited = none ∧
    step (run [Ev.deliver Sig.SIGTERM]) (Ev.deliver Sig.SIGTERM) =
      { run [Ev.deliver Sig.SIGTERM] with
        log := (run [Ev.deliver Sig.SIGTERM]).log ++
          [LogEv.initiated Sig.SIGTERM]
        pendingClose := (run [Ev.deliver Sig.SIGTERM]).pendingClose + 1
        timers := (run [Ev.deliver Sig.SIGTERM]).timers ++
          [shutdownTimeoutMs] } :=
  ⟨rfl, signal_handler_runs_per_signal (run [Ev.deliver Sig.SIGTERM])
    Sig.SIGTERM rfl⟩

/-- Claim C3: on the clean path — a termination signal, then the listener
drain completes without error, then the storage close completes without
error — the process exits with status code 0 and exactly the four lifecycle
events are logged, in order: shutdown initiated, listener closed, storage
closed, shutdown complete. -/
theorem clean_path_four_events_exit_zero (s : Sig) :
    run [Ev.deliver s, Ev.srvClosed true, Ev.mongoClosed true] =
      { log := [LogEv.initiated s, LogEv.httpClosed, LogEv.mongoConnClosed,
                LogEv.shutdownCompleted]
        pendingClose := 0
        timers := [shutdownTimeoutMs]
        serverClosed := true
        mongoCloseCalls := 1
        exited := some 0 } := by
  cases s <;> rfl

/-- Claim C4: on the listener-close failure path an error event is logged
and the process exits 1 with `mongoose.connection.close()` never invoked
(zero invocations, in this run and in every continuation of it, since exit
is final); on the storage-close failure path, after the listener closed, an
error event is logged and the process exits 1. In both cases the final
state is frozen for every continuation `es`, so the failed operation is
never retried: the close-invocation counts stay at their values. -/
theorem failure_paths_exit_nonzero_no_retry (s : Sig) (es : List Ev) :
    run (Ev.deliver s :: Ev.srvClosed false :: es) =
      { log := [LogEv.initiated s, LogEv.serverCloseError]
        pendingClose := 0
        timers := [shutdownTimeoutMs]
        serverClosed := false
        mongoCloseCalls := 0
        exited := some 1 } ∧
    run (Ev.deliver s :: Ev.srvClosed true :: Ev.mongoClosed false :: es) =
      { log := [LogEv.initiated s, LogEv.httpClosed, LogEv.shutdownError]
        pendingClose := 0
        timers := [shutdownTimeoutMs]
        serverClosed := true
        mongoCloseCalls := 1
        exited := some 1 } := by
  constructor
  · have hex : (step (step init (Ev.deliver s))
        (Ev.srvClosed false)).exited.isSome = true := by cases s <;> rfl
    calc run (Ev.deliver s :: Ev.srvClosed false :: es)
        = es.foldl step (step (step init (Ev.deliver s))
            (Ev.srvClosed false)) := rfl
      _ = step (step init (Ev.deliver s)) (Ev.srvClosed false) :=
            foldl_step_of_exited es _ hex
      _ = _ := by cases s <;> rfl
  · have hex : (step (step (step init (Ev.deliver s)) (Ev.srvClosed true))
        (Ev.mongoClosed false)).exited.isSome = true := by cases s <;> rfl
    calc run (Ev.deliver s :: Ev.srvClosed true :: Ev.mongoClosed false :: es)
        = es.foldl step (step (step (step init (Ev.deliver s))
            (Ev.srvClosed true)) (Ev.mongoClosed false)) := rfl
      _ = step (step (step init (Ev.deliver s)) (Ev.srvClosed true))
            (Ev.mongoClosed false) := foldl_step_of_exited es _ hex
      _ = _ := by cases s <;> rfl

/-- Claim C5: the timer armed by `gracefulShutdown` has the fixed duration
30000 ms; a signal delivered to a live process arms one such timer; when an
armed timer elapses before the coordinator terminated, the step logs the
timeout warning and force-exits with status 1, regardless of which stage
the drain/close sequence was in (arbitrary live `c`); and in every run the
timeout warning appears at most once in the log (together with the previous
conjunct: exactly once when the timer fires first). -/
theorem shutdown_timer_thirty_seconds_forces_exit (c : Config) (s : Sig)
    (halive : c.exited = none) (ht : c.timers ≠ []) :
    shutdownTimeoutMs = 30000 ∧
    (step c (Ev.deliver s)).timers = c.timers ++ [shutdownTimeoutMs] ∧
    (step c Ev.timerFire).exited = some 1 ∧
    (step c Ev.timerFire).log = c.log ++ [LogEv.timedOut] ∧
    ∀ es : List Ev, countTimedOut (run es).log ≤ 1 := by
  have hex : ¬ c.exited.isSome = true := by simp [halive]
  refine ⟨rfl, ?_, ?_, ?_, ?_⟩
  · simp [step, if_neg hex, gracefulShutdown]
  · cases hts : c.timers with
    | nil => exact absurd hts ht
    | cons a ts => simp [step, if_neg hex, hts]
  · cases hts : c.timers with
    | nil => exact absurd hts ht
    | cons a ts => simp [step, if_neg hex, hts]
  · intro es
    exact (foldl_step_inv
      (fun c => (c.exited = none → countTimedOut c.log = 0) ∧
        countTimedOut c.log ≤ 1)
      timedOut_inv_step es init ⟨fun _ => rfl, by decide⟩).2

/-- Witness for C5: with one SIGTERM delivered the process is live with an
armed timer, and firing the timer force-exits with status 1. -/
theorem shutdown_timer_thirty_seconds_forces_exit_witness :
    ((run [Ev.deliver Sig.SIGTERM]).exited = none ∧
     (run [Ev.deliver Sig.SIGTERM]).timers ≠ []) ∧
    (step (run [Ev.deliver Sig.SIGTERM]) Ev.timerFire).exited = some 1 :=
  ⟨⟨rfl, by decide⟩,
   (shutdown_timer_thirty_seconds_forces_exit (run [Ev.deliver Sig.SIGTERM])
     Sig.SIGTERM rfl (by decide)).2.2.1⟩

/-- Claim C6: both recognized termination signals are wired to the same
handler `gracefulShutdown` (server.ts lines 223-224), and the resulting
behaviour is identical regardless of which of the two arrives: the
post-states for SIGTERM and SIGINT agree on every field and differ only in
the signal name recorded in the shutdown-initiated log event. -/
theorem sigterm_sigint_same_handler_same_behaviour (c : Config)
    (h : c.exited = none) :
    (∀ s : Sig, step c (Ev.deliver s) = gracefulShutdown s c) ∧
    step c (Ev.deliver Sig.SIGTERM) =
      { step c (Ev.deliver Sig.SIGINT) with
        log := c.log ++ [LogEv.initiated Sig.SIGTERM] } := by
  have hex : ¬ c.exited.isSome = true := by simp [h]
  constructor
  · intro s; simp [step, if_neg hex]
  · simp [step, if_neg hex, gracefulShutdown]

/-- Witness for C6: at the initial state, delivering SIGTERM and SIGINT
produce the same state up to the logged signal name. -/
theorem sigterm_sigint_same_handler_same_behaviour_witness :
    init.exited = none ∧
    step init (Ev.deliver Sig.SIGTERM) =
      { step init (Ev.deliver Sig.SIGINT) with
        log := init.log ++ [LogEv.initiated Sig.SIGTERM] } :=
  ⟨rfl, (sigterm_sigint_same_handler_same_behaviour init rfl).2⟩

/-- Claim C7: if the initial storage connection attempt fails, the process
logs the connection error but does not exit (the exit on that path is
commented out in the source) and keeps listening; a request that needs
storage then fails individually — the handler catches the thrown driver
error and answers 500 with `success: false` instead of crashing the
process. -/
theorem connect_failure_logs_but_keeps_serving :
    (startup ConnectOutcome.connectError).exited = none ∧
    (startup ConnectOutcome.connectError).listening = true ∧
    (startup ConnectOutcome.connectError).log =
      [StartLog.mongoConnectErrorMsg] ∧
    ∀ msg : String, getTasks (Except.error msg) =
      { status := 500, success := false, count := none, data := none,
        error := some msg } :=
  ⟨rfl, rfl, rfl, fun _ => rfl⟩

/-- Counterexample to claim C8: a POST request with the non-empty title
"Buy milk" whose awaited `Task.create` throws (for example, storage is
disconnected, the failure mode claim C7 acknowledges) is answered with
status 500 and `success: false`, not the claimed 201. -/
theorem post_nonempty_title_can_return_500 :
    (postTasks [] 1 0 (some "Buy milk") (some "DB down")).1.status = 500 ∧
    (postTasks [] 1 0 (some "Buy milk") (some "DB down")).1.status ≠ 201 ∧
    (postTasks [] 1 0 (some "Buy milk") (some "DB down")).1.success = false ∧
    (postTasks [] 1 0 (some "Buy milk") (some "DB down")).2 = [] := by
  refine ⟨rfl, by decide, rfl, rfl⟩

/-- Claim C8 as amended: a missing or falsy title is answered 400 with
error "Title is required" and the stored collection unchanged (the check
precedes any driver call, so this holds whatever the create outcome would
have been); a non-empty title whose create succeeds is answered 201 with
`success: true` and the created task, which is appended to the collection;
a non-empty title whose create throws is answered 500 with `success:
false` and the collection unchanged. -/
theorem post_tasks_spec (db : List Task) (newId now : Nat)
    (title : Option String) (e : Option String) :
    (titleFalsy title = true →
      postTasks db newId now title e =
        ({ status := 400, success := false, data := none, message := none,
           error := some "Title is required" }, db)) ∧
    (∀ t : String, title = some t → ¬ t = "" →
      postTasks db newId now title none =
        ({ status := 201, success := true,
           data := some { id := newId, title := t, completed := false,
                          createdAt := now },
           message := none, error := none },
         db ++ [{ id := newId, title := t, completed := false,
                  createdAt := now }])) ∧
    (∀ t msg : String, title = some t → ¬ t = "" → e = some msg →
      postTasks db newId now title e =
        ({ status := 500, success := false, data := none, message := none,
           error := some msg }, db)) := by
  refine ⟨?_, ?_, ?_⟩
  · intro hf
    simp [postTasks, hf]
  · intro t ht hne
    subst ht
    simp [postTasks, titleFalsy, hne, createTask]
  · intro t msg ht hne he
    subst ht he
    simp [postTasks, titleFalsy, hne]

/-- Witness for the amended C8: creating a task titled "Buy milk" with a
succeeding driver call answers 201 and appends the document. -/
theorem post_tasks_spec_witness :
    postTasks [] 1 5 (some "Buy milk") none =
      ({ status := 201, success := true,
         data := some { id := 1, title := "Buy milk", completed := false,
                        createdAt := 5 },
         message := none, error := none },
       [{ id := 1, title := "Buy milk", completed := false,
          createdAt := 5 }]) :=
  (post_tasks_spec [] 1 5 (some "Buy milk") none).2.1 "Buy milk" rfl
    (by decide)

/-- Claim C9: a PUT or DELETE whose id matches no stored task (the lookup
returns null without throwing) is answered 404 with `success: false` and
error "Task not found", and the stored collection is unchanged. -/
theorem put_delete_unknown_id_404_unchanged (id : Nat) (b : UpdateBody)
    (db : List Task) (h : ∀ t ∈ db, t.id ≠ id) :
    putTasks id b db =
      ({ status := 404, success := false, data := none, message := none,
         error := some "Task not found" }, db) ∧
    deleteTasks id db =
      ({ status := 404, success := false, data := none, message := none,
         error := some "Task not found" }, db) := by
  have hfind : db.find? (fun t => t.id == id) = none := by
    rw [List.find?_eq_none]
    intro t ht
    simp [h t ht]
  constructor
  · simp [putTasks, findByIdAndUpdate, hfind]
  · simp [deleteTasks, findByIdAndDelete, hfind]

/-- Witness for C9: id 7 matches no task in a one-task store; both handlers
answer 404 and leave the store unchanged. -/
theorem put_delete_unknown_id_404_unchanged_witness :
    (∀ t ∈ [Task.mk 1 "a" false 0], t.id ≠ 7) ∧
    putTasks 7 (UpdateBody.mk none none) [Task.mk 1 "a" false 0] =
      ({ status := 404, success := false, data := none, message := none,
         error := some "Task not found" }, [Task.mk 1 "a" false 0]) :=
  ⟨by decide,
   (put_delete_unknown_id_404_unchanged 7 (UpdateBody.mk none none)
     [Task.mk 1 "a" false 0] (by decide)).1⟩

/-- Claim C10: a GET /api/tasks whose query succeeds is answered with
`success: true`, `data` the stored tasks ordered by `createdAt` descending
(a permutation of the store, sorted non-increasing in `createdAt`) and
`count` equal to the length of `data` (which equals the number of stored
tasks); a GET whose query throws is answered 500 with `success: false`. -/
theorem get_tasks_sorted_desc_with_count (db : List Task) (msg : String) :
    getTasks (Except.ok (findSortedByCreatedAtDesc db)) =
      { status := 200, success := true,
        count := some (findSortedByCreatedAtDesc db).length,
        data := some (findSortedByCreatedAtDesc db), error := none } ∧
    (findSortedByCreatedAtDesc db).Perm db ∧
    List.Sorted (fun a b => b.createdAt ≤ a.createdAt)
      (findSortedByCreatedAtDesc db) ∧
    (findSortedByCreatedAtDesc db).length = db.length ∧
    getTasks (Except.error msg) =
      { status := 500, success := false, count := none, data := none,
        error := some msg } := by
  refine ⟨rfl, ?_, ?_, ?_, rfl⟩
  · exact List.perm_insertionSort _ db
  · exact List.sorted_insertionSort _ db
  · exact (List.perm_insertionSort _ db).length_eq

end DockerDemo
